import Mathlib

/-!
Verification of the FinDocGPT iterative financial-analysis engine.

This file shallowly embeds the core state and control logic of the
repository (backend/analysis/models.py, backend/services/iterative_analysis_service.py,
backend/services/gemini_validation_service.py, backend/services/cognee_service.py)
as executable Lean definitions, and proves (or refutes) the frozen claims
about them.

Modelling conventions:
  * Analyses, evaluations and RAG results are JSON dictionaries in the
    source; only their control-relevant fields are modelled, the rest of
    the payload is an opaque identifier (`Nat`).
  * LLM calls, the RAG backend, the web-search tool and the wall clock are
    external effects; they are modelled as oracle functions passed in
    explicitly, with `Option` encoding the source's error / parse-failure
    dictionaries.
  * Cryptographic hashes (SHA-256, MD5) are used by the source purely as
    injective encodings of their inputs; they are modelled by the inputs
    themselves (a structure of the hashed fields, resp. the preimage string).
-/

namespace FinDocGPT

/-- Opaque analysis payload (a parsed JSON dictionary in the source); only
its identity matters to the control flow modelled here. -/
abbrev Analysis := Nat

/-- Opaque per-query RAG execution result (`execute_rag_query`'s dictionary). -/
abbrev RagExecResult := Nat

/-- The control-relevant fields of a successfully parsed evaluation JSON,
after the source's `evaluation.get('completeness_score', 0)` and
`evaluation.get('is_analysis_complete', False)` defaulting. -/
structure EvalResult where
  completeness_score : Int
  is_analysis_complete : Bool
deriving Repr, DecidableEq

/-- One record of `iteration_history` as appended by
`IterativeAnalysisService.run_iterative_analysis`.  The source uses plain
dictionaries whose keys vary with the record type; absent keys are `none`. -/
structure IterRecord where
  iteration : Nat
  type : String
  timestamp : String
  analysis : Option Analysis := none
  evaluation : Option EvalResult := none
  completeness_score : Option Int := none
  is_complete : Option Bool := none
  queries : Option (List String) := none
  results : Option (List RagExecResult) := none
deriving Repr, DecidableEq

/-- Loop body of `IterativeAnalysis.get_latest_iteration_analysis`
(backend/analysis/models.py, lines 174-184): track the analysis of the
record with the greatest truthy timestamp among records whose `type` tag is
`'initial_analysis'` or `'refinement'`.  Python compares ISO timestamp
strings lexicographically; an empty string is falsy and skipped. -/
def latestIterationAux : List IterRecord → Option String → Option Analysis → Option Analysis
  | [], _, acc => acc
  | r :: rest, latestTs, acc =>
    if (r.type == "initial_analysis" || r.type == "refinement")
        && !(r.timestamp == "")
        && (match latestTs with
            | none => true
            | some t => decide (t < r.timestamp)) then
      latestIterationAux rest (some r.timestamp) r.analysis
    else
      latestIterationAux rest latestTs acc

/-- `IterativeAnalysis.get_latest_iteration_analysis`
(backend/analysis/models.py, lines 168-184). -/
def get_latest_iteration_analysis (history : List IterRecord) : Option Analysis :=
  latestIterationAux history none none

/-- The persisted fields of one `IterativeAnalysis` row
(backend/analysis/models.py, lines 4-34). -/
structure IterativeAnalysisJob where
  query : String
  company_filter : Option String
  final_analysis : Option Analysis
  iteration_history : Option (List IterRecord)
  cancel_requested : Bool
  total_iterations : Int
  documents_analyzed : Int
  rag_queries_executed : Int
  final_completeness_score : Int
  created_at : String
  completed_at : Option String
  status : String
  error_message : Option String
deriving Repr, DecidableEq

/-- The keyword arguments accepted by `IterativeAnalysis.update_progress`;
`none` models an absent keyword (the source tests `'field' in kwargs`). -/
structure ProgressKwargs where
  total_iterations : Option Int := none
  documents_analyzed : Option Int := none
  rag_queries_executed : Option Int := none
  final_completeness_score : Option Int := none
  iteration_history : Option (List IterRecord) := none
  final_analysis : Option Analysis := none
deriving Repr

/-- `IterativeAnalysis.update_progress` (backend/analysis/models.py,
lines 72-104): copy each supplied keyword into its field.  The closing
`save(update_fields=[...])` writes exactly these six columns to the
database and touches nothing else, so the in-memory record update below is
the whole effect. -/
def update_progress (job : IterativeAnalysisJob) (k : ProgressKwargs) : IterativeAnalysisJob :=
  let job := match k.total_iterations with
    | some v => { job with total_iterations := v }
    | none => job
  let job := match k.documents_analyzed with
    | some v => { job with documents_analyzed := v }
    | none => job
  let job := match k.rag_queries_executed with
    | some v => { job with rag_queries_executed := v }
    | none => job
  let job := match k.final_completeness_score with
    | some v => { job with final_completeness_score := v }
    | none => job
  let job := match k.iteration_history with
    | some v => { job with iteration_history := some v }
    | none => job
  let job := match k.final_analysis with
    | some v => { job with final_analysis := some v }
    | none => job
  job

/-- The external effects used by `run_iterative_analysis`, as oracles.
`evalAt`, `queriesAt` and `refineAt` are indexed by the loop iteration
number (1-based); `none` / `[]` model the error dictionaries of the
corresponding helper (`question_analysis_completeness`,
`generate_targeted_rag_queries`, `refine_analysis_with_rag_results`).
`clock` models `datetime.now().isoformat()` at the n-th timestamp taken. -/
structure AnalysisLlm where
  initial : Option Analysis
  evalAt : Nat → Option EvalResult
  queriesAt : Nat → List String
  refineAt : Nat → Option Analysis
  execQuery : String → RagExecResult
  clock : Nat → String

/-- Controller state threaded through the refinement loop: the current
analysis, the accumulated `iteration_history`, and the number of
`should_cancel()` polls made so far (each poll re-reads the persisted
cancel flag, so the flag is modelled as a stream `Nat → Bool`). -/
structure RunState where
  current : Analysis
  history : List IterRecord
  polls : Nat
deriving Repr, DecidableEq

/-- The per-query RAG execution loop of `run_iterative_analysis`
(lines 600-605): `should_cancel()` is polled before each query and a
cancellation breaks out, keeping the results gathered so far. -/
def execRagQueries (o : AnalysisLlm) (cancel : Nat → Bool) :
    List String → Nat → List RagExecResult × Nat
  | [], polls => ([], polls)
  | q :: qs, polls =>
    if cancel polls then ([], polls + 1)
    else
      let r := o.execQuery q
      let (rest, finalPolls) := execRagQueries o cancel qs (polls + 1)
      (r :: rest, finalPolls)

/-- The `'evaluation'` history record appended at lines 566-573 of
`run_iterative_analysis`; `tick` is the timestamp counter. -/
def evaluationRecord (o : AnalysisLlm) (i tick : Nat) (ev : EvalResult) : IterRecord :=
  { iteration := i
    type := "evaluation"
    timestamp := o.clock tick
    evaluation := some ev
    completeness_score := some ev.completeness_score
    is_complete := some ev.is_analysis_complete }

/-- The `'rag_queries'` history record appended at lines 607-613. -/
def ragQueriesRecord (o : AnalysisLlm) (i tick : Nat) (queries : List String)
    (results : List RagExecResult) : IterRecord :=
  { iteration := i
    type := "rag_queries"
    timestamp := o.clock tick
    queries := some queries
    results := some results }

/-- The `'refined_analysis'` history record appended at lines 631-636. -/
def refinedAnalysisRecord (o : AnalysisLlm) (i tick : Nat) (a : Analysis) : IterRecord :=
  { iteration := i
    type := "refined_analysis"
    timestamp := o.clock tick
    analysis := some a }

/-- The `'initial_analysis'` history record created at lines 536-541. -/
def initialAnalysisRecord (o : AnalysisLlm) (a : Analysis) : IterRecord :=
  { iteration := 0
    type := "initial_analysis"
    timestamp := o.clock 0
    analysis := some a }

/-- The iterative refinement loop of `run_iterative_analysis`
(backend/services/iterative_analysis_service.py, lines 550-645), iterating
`iteration` from `i` while fuel remains (the source writes
`for iteration in range(1, self.max_iterations + 1)`). Each arm mirrors a
`break` of the source loop. -/
def runLoop (o : AnalysisLlm) (cancel : Nat → Bool) :
    Nat → Nat → RunState → RunState
  | 0, _, st => st
  | fuel + 1, i, st =>
    if cancel st.polls then { st with polls := st.polls + 1 }
    else
      let polls1 := st.polls + 1
      match o.evalAt i with
      | none => { st with polls := polls1 }
      | some ev =>
        let hist1 := st.history ++ [evaluationRecord o i st.history.length ev]
        if ev.is_analysis_complete = true ∨ 7 ≤ ev.completeness_score then
          { current := st.current, history := hist1, polls := polls1 }
        else
          match o.queriesAt i with
          | [] => { current := st.current, history := hist1, polls := polls1 }
          | q :: qs =>
            let (results, polls2) := execRagQueries o cancel (q :: qs) polls1
            let hist2 := hist1 ++ [ragQueriesRecord o i hist1.length (q :: qs) results]
            if cancel polls2 then
              { current := st.current, history := hist2, polls := polls2 + 1 }
            else
              match o.refineAt i with
              | none => { current := st.current, history := hist2, polls := polls2 + 1 }
              | some refined =>
                let hist3 := hist2 ++ [refinedAnalysisRecord o i hist2.length refined]
                runLoop o cancel fuel (i + 1)
                  { current := refined, history := hist3, polls := polls2 + 1 }

/-- `len([h for h in iteration_history if h['type'] == 'evaluation'])`
(line 652). -/
def countEvaluations (h : List IterRecord) : Nat :=
  (h.filter (fun r => r.type == "evaluation")).length

/-- `sum(len(h.get('queries', [])) for h in iteration_history if
h['type'] == 'rag_queries')` (lines 616 and 659). -/
def sumRagQueries (h : List IterRecord) : Nat :=
  ((h.filter (fun r => r.type == "rag_queries")).map
    (fun r => (r.queries.getD []).length)).sum

/-- Body of `_get_final_completeness_score` applied to the reversed
history: return `completeness_score` (default 0) of the first
`'evaluation'` record found. -/
def finalScoreAux : List IterRecord → Int
  | [] => 0
  | r :: rest =>
    if r.type == "evaluation" then r.completeness_score.getD 0
    else finalScoreAux rest

/-- `IterativeAnalysisService._get_final_completeness_score`
(lines 735-741): scan `iteration_history` in reverse for the last
`'evaluation'` record. -/
def get_final_completeness_score (h : List IterRecord) : Int :=
  finalScoreAux h.reverse

/-- `self.max_iterations = 10` (line 30). -/
def max_iterations : Nat := 10

/-- The successful return dictionary of `run_iterative_analysis`
(lines 648-661), restricted to its deterministic fields. -/
structure FinalResults where
  final_analysis : Analysis
  total_iterations : Nat
  documents_analyzed : Nat
  iteration_history : List IterRecord
  final_completeness_score : Int
  rag_queries_executed : Nat
  cancelled : Bool
deriving Repr, DecidableEq

/-- The possible returns of `run_iterative_analysis`: the
`'No documents available for analysis'` error dictionary, the
cancelled-before-start dictionary, the initial-analysis error dictionary,
or the final results. -/
inductive RunOutcome where
  | noDocuments
  | cancelledBeforeStart (documents_analyzed : Nat)
  | initialError
  | finished (r : FinalResults)
deriving Repr, DecidableEq

/-- `IterativeAnalysisService.run_iterative_analysis`
(backend/services/iterative_analysis_service.py, lines 472-693).
`documentCount` is the number of document summaries returned by
`get_document_summaries` (the controller only uses their count and passes
them to the LLM oracles); `cancel` is the stream of `should_cancel()`
poll answers. -/
def run_iterative_analysis (o : AnalysisLlm) (cancel : Nat → Bool)
    (documentCount : Nat) : RunOutcome :=
  if documentCount = 0 then .noDocuments
  else if cancel 0 then .cancelledBeforeStart documentCount
  else
    match o.initial with
    | none => .initialError
    | some a0 =>
      let st0 : RunState :=
        { current := a0
          history := [initialAnalysisRecord o a0]
          polls := 1 }
      let st := runLoop o cancel max_iterations 1 st0
      .finished
        { final_analysis := st.current
          total_iterations := countEvaluations st.history
          documents_analyzed := documentCount
          iteration_history := st.history
          final_completeness_score := get_final_completeness_score st.history
          rag_queries_executed := sumRagQueries st.history
          cancelled := cancel st.polls }

/-- The grading dictionary handled by `validate_rag_response`: either the
parsed LLM JSON (arbitrary subset of keys) or one of the fixed fallback
dictionaries built by the source. Missing keys are `none`. -/
structure ValidationRecord where
  validation_available : Option Bool := none
  validation_passed : Option Bool := none
  reasoning : Option String := none
  confidence_score : Option ℚ := none
deriving Repr, DecidableEq

/-- Outcome of the stage-1 grading LLM call inside `validate_rag_response`:
the service is unconfigured, the call returned text that parsed as JSON,
the call returned text that failed `json.loads`, or the call itself raised
(infrastructure error). -/
inductive GraderCall where
  | unavailable
  | parsed (v : ValidationRecord)
  | parseFailure
  | infraError (msg : String)
deriving Repr

/-- `GeminiValidationService.validate_rag_response`
(backend/services/gemini_validation_service.py, lines 56-148).  Every
branch of the source returns a dictionary — exceptions of the LLM call are
caught, and a JSON parse failure is caught — so the embedding is a total
function of the call outcome. -/
def validate_rag_response : GraderCall → ValidationRecord
  | .unavailable =>
    { validation_available := some false
      validation_passed := some true
      reasoning := some "Gemini validation not available"
      confidence_score := some (1/2) }
  | .parsed v => v
  | .parseFailure =>
    { validation_available := some true
      validation_passed := some false
      reasoning := some "Failed to parse validation response"
      confidence_score := some 0 }
  | .infraError msg =>
    { validation_available := some false
      validation_passed := some true
      reasoning := some ("Validation error: " ++ msg)
      confidence_score := some (1/2) }

/-- Python's `str.lower()`, modelled as a character-wise map (the source
only lowercases ASCII company names, form types and English response
text). -/
def lowerStr (s : String) : String :=
  String.mk (s.data.map Char.toLower)

/-- Substring test used to model Python's `in` operator on strings. -/
def strContainsSub (s pat : String) : Bool :=
  s.toList.tails.any (fun t => pat.toList.isPrefixOf t)

/-- The source tokens of `has_sources` (lines 283-287), matched against the
lowercased response. -/
def sourceTokens : List String :=
  ["reuters", "bloomberg", "wall street journal", "financial times",
   "sec filing", "10-k", "10-q", "federal reserve", "treasury",
   "yahoo finance", "marketwatch", "source:", "according to"]

/-- The tokens of `has_specific_data` (lines 288-291), matched against the
response without lowercasing. -/
def specificDataTokens : List String :=
  ["$", "%", "billion", "million", "quarter", "Q1", "Q2", "Q3", "Q4",
   "2024", "2025", "fiscal year"]

/-- The tokens of `has_timeframe` (lines 292-296), matched against the
lowercased response. -/
def timeframeTokens : List String :=
  ["as of", "current", "latest", "recent", "today", "this year",
   "january", "february", "march", "april", "may", "june",
   "july", "august", "september", "october", "november", "december"]

/-- The phrases of `no_disclaimers_only` (lines 300-302), matched against
the lowercased response. -/
def disclaimerTokens : List String :=
  ["cannot provide", "unable to access", "no information available"]

/-- `has_sources` indicator (line 283). -/
def has_sources (s : String) : Bool :=
  sourceTokens.any (fun t => strContainsSub (lowerStr s) t)

/-- `has_specific_data` indicator (line 288). -/
def has_specific_data (s : String) : Bool :=
  specificDataTokens.any (fun t => strContainsSub s t)

/-- `has_timeframe` indicator (line 292). -/
def has_timeframe (s : String) : Bool :=
  timeframeTokens.any (fun t => strContainsSub (lowerStr s) t)

/-- `appropriate_length` indicator: `100 < len(search_response) < 2000`
(line 297). -/
def appropriate_length (s : String) : Bool :=
  100 < s.length && s.length < 2000

/-- `no_disclaimers_only` indicator (lines 298-303). -/
def no_disclaimers_only (s : String) : Bool :=
  !(s.length < 200 && disclaimerTokens.any (fun t => strContainsSub (lowerStr s) t))

/-- `quality_score = sum(quality_indicators.values()) / len(quality_indicators)`
(line 307); the five booleans are summed as integers and divided by 5. -/
def quality_score (s : String) : ℚ :=
  (((has_sources s).toNat + (has_specific_data s).toNat + (has_timeframe s).toNat
    + (appropriate_length s).toNat + (no_disclaimers_only s).toNat : ℕ) : ℚ) / 5

/-- `meets_standards` (lines 310-315). -/
def meets_financial_standards (s : String) : Bool :=
  has_specific_data s && appropriate_length s && no_disclaimers_only s
    && decide ((3 : ℚ)/5 ≤ quality_score s)

/-- The quality-assessment dictionary returned by
`_validate_financial_search_quality` (lines 317-323), restricted to its
deterministic fields. -/
structure QualityAssessment where
  quality_score : ℚ
  meets_financial_standards : Bool
  recommendation : String
deriving Repr, DecidableEq

/-- `GeminiValidationService._validate_financial_search_quality`
(backend/services/gemini_validation_service.py, lines 269-323) on the
success path (the `except` arm only fires if the pure computation above
raises, which it cannot). -/
def validate_financial_search_quality (s : String) : QualityAssessment :=
  { quality_score := quality_score s
    meets_financial_standards := meets_financial_standards s
    recommendation := if meets_financial_standards s then "use" else "review_carefully" }

/-- Outcome of the grounded web-search LLM call inside `search_with_gemini`:
the stripped response text, or a raised exception. -/
inductive SearchOutcome where
  | ok (text : String)
  | err (msg : String)
deriving Repr

/-- The dictionary returned by `search_with_gemini` (lines 150-237),
restricted to the fields read downstream. -/
structure EnhancedResponse where
  search_available : Bool
  response : Option String
  quality_assessment : Option QualityAssessment
deriving Repr, DecidableEq

/-- `GeminiValidationService.search_with_gemini`
(backend/services/gemini_validation_service.py, lines 150-237). -/
def search_with_gemini (configured : Bool) (outcome : SearchOutcome) :
    EnhancedResponse :=
  if configured then
    match outcome with
    | .ok text =>
      { search_available := true
        response := some text
        quality_assessment := some (validate_financial_search_quality text) }
    | .err _ =>
      { search_available := false, response := none, quality_assessment := none }
  else
    { search_available := false, response := none, quality_assessment := none }

/-- The dictionary returned by `validate_and_enhance_rag_response`
(lines 260-267), restricted to the fields read downstream. -/
structure PipelineResult where
  original_rag_response : List String
  validation_result : ValidationRecord
  enhanced_response : Option EnhancedResponse
  final_source : String
deriving Repr, DecidableEq

/-- `GeminiValidationService.validate_and_enhance_rag_response`
(backend/services/gemini_validation_service.py, lines 239-267).  The web
search runs only when `validation_result.get('validation_passed', True)`
is `False`; `final_source` is `'gemini_search'` iff an enhanced response
exists and its `search_available` flag is truthy. -/
def validate_and_enhance_rag_response (ragResponse : List String)
    (grader : GraderCall) (configured : Bool) (search : SearchOutcome) :
    PipelineResult :=
  let vr := validate_rag_response grader
  let enhanced :=
    if vr.validation_passed.getD true = false then
      some (search_with_gemini configured search)
    else none
  { original_rag_response := ragResponse
    validation_result := vr
    enhanced_response := enhanced
    final_source :=
      match enhanced with
      | some e => if e.search_available then "gemini_search" else "rag"
      | none => "rag" }

/-- The warning suffix appended at line 357. -/
def qualityWarning : String :=
  "\n\n[Note: This information from web search may not meet all financial data quality standards. Please verify with authoritative sources.]"

/-- `GeminiValidationService.get_final_response`
(backend/services/gemini_validation_service.py, lines 334-361).  Python
truthiness of `enhanced_response.get('response')` requires a non-empty
string; `quality_assessment.get('meets_financial_standards', True)`
defaults to passing when the assessment is absent. -/
def get_final_response (pr : PipelineResult) : List String :=
  match pr.enhanced_response with
  | some e =>
    if e.search_available then
      match e.response with
      | some t =>
        if t ≠ "" then
          let meets :=
            match e.quality_assessment with
            | some qa => qa.meets_financial_standards
            | none => true
          if meets then [t] else [t ++ qualityWarning]
        else pr.original_rag_response
      | none => pr.original_rag_response
    else pr.original_rag_response
  | none => pr.original_rag_response

/-- Document metadata as read by `CogneeService` via
`metadata.get(key, '')`; the defaults make the fields total strings. -/
structure DocMetadata where
  company_name : String
  form_type : String
  filing_date : String
  accession_number : String
deriving Repr, DecidableEq

/-- The fingerprint computed by `CogneeService._create_document_fingerprint`
(backend/services/cognee_service.py, lines 146-158): the SHA-256 of a
canonical JSON of the five fields below.  SHA-256 and the sorted-key JSON
serialisation are injective encodings of the field tuple, so the
fingerprint is modelled as the tuple itself (`content_hash`, itself a
SHA-256 of the content, is modelled as the content). -/
structure Fingerprint where
  content_hash : String
  company_name : String
  form_type : String
  filing_date : String
  accession_number : String
deriving Repr, DecidableEq

/-- `CogneeService._create_document_fingerprint` (lines 146-158). -/
def create_document_fingerprint (content : String) (m : DocMetadata) : Fingerprint :=
  { content_hash := content
    company_name := lowerStr m.company_name
    form_type := lowerStr m.form_type
    filing_date := m.filing_date
    accession_number := m.accession_number }

/-- A document-registry entry (`doc_info`, lines 793-802), restricted to
its deterministic fields; `summary` is the opaque structured summary. -/
structure DocInfo where
  fingerprint : Fingerprint
  metadata : DocMetadata
  summary : Option Nat
  content_length : Nat
  full_content : String
  content_hash : String
deriving Repr, DecidableEq

/-- The mutable state of a `CogneeService` instance: the search-result
cache `_search_cache` (keyed by `_create_cache_key`) and the document
registry `_document_registry` (keyed by fingerprint), plus the
`is_configured` flag.  Both dictionaries are modelled as association
lists with the most recent insertion first. -/
structure CogneeState where
  is_configured : Bool
  search_cache : List (String × List String)
  document_registry : List (Fingerprint × DocInfo)
deriving Repr, DecidableEq

/-- `CogneeService._create_cache_key` (lines 554-557): the MD5 hex digest
of `f"{query}:{search_type}"`, modelled by the digest preimage (MD5 is
used purely as an injective key encoding). -/
def create_cache_key (query searchType : String) : String :=
  query ++ ":" ++ searchType

/-- `CogneeService.search_context` (backend/services/cognee_service.py,
lines 870-900): consult the cache first, otherwise run the backend search
(modelled by the oracle value `backendResult`) and cache its projection. -/
def search_context (backendResult : List String) (st : CogneeState)
    (query searchType : String) : List String × CogneeState :=
  if st.is_configured = false then ([], st)
  else
    let key := create_cache_key query searchType
    match st.search_cache.lookup key with
    | some cached => (cached, st)
    | none =>
      (backendResult, { st with search_cache := (key, backendResult) :: st.search_cache })

/-- `CogneeService.prune_data` / `_prune_data_async`
(backend/services/cognee_service.py, lines 1053-1090).  On success the
store state and data files are pruned and `_document_registry` is cleared;
the `_search_cache` field is not touched by this method.  `pruneOk` models
whether the external prune and file operations succeed (on an exception the
method returns `False` before reaching the registry clear). -/
def prune_data (pruneOk : Bool) (st : CogneeState) : Bool × CogneeState :=
  if st.is_configured = false then (false, st)
  else if pruneOk then (true, { st with document_registry := [] })
  else (false, st)

/-- `CogneeService.complete_reset` (backend/services/cognee_service.py,
lines 1092-1129).  On success the store directories are recreated and both
`_search_cache` and `_document_registry` are cleared.  `resetOk` models
whether the file operations succeed. -/
def complete_reset (resetOk : Bool) (st : CogneeState) : Bool × CogneeState :=
  if resetOk then (true, { st with search_cache := [], document_registry := [] })
  else (false, st)

/-- Which duplicate check of `add_document` rejected the insert: the exact
fingerprint hit (reason string `'Document already exists in registry'`,
lines 752-764) or the similar-triple scan (reason string
`'Similar document exists: ...'`, lines 766-783). -/
inductive DupReason where
  | exactFingerprint
  | similarTriple
deriving Repr, DecidableEq

/-- The dictionary returned by `CogneeService.add_document`, restricted to
its deterministic fields. -/
structure AddResult where
  success : Bool
  duplicate : Bool := false
  reason : Option DupReason := none
  fingerprint : Option Fingerprint := none
  error : Bool := false
deriving Repr, DecidableEq

/-- `CogneeService.add_document` (backend/services/cognee_service.py,
lines 739-826).  `ragResult` models the outcome of
`_add_document_async` (parallel RAG storage and summary generation):
`some summary` on success, `none` on failure.  On success the entry is
inserted into the registry and persisted. -/
def add_document (ragResult : Option Nat) (st : CogneeState)
    (content : String) (m : DocMetadata) : AddResult × CogneeState :=
  if st.is_configured = false then
    ({ success := false, error := true }, st)
  else
    let fp := create_document_fingerprint content m
    if (st.document_registry.lookup fp).isSome then
      ({ success := false, duplicate := true, reason := some .exactFingerprint }, st)
    else if st.document_registry.any (fun e =>
        lowerStr e.2.metadata.company_name == lowerStr m.company_name
          && lowerStr e.2.metadata.form_type == lowerStr m.form_type
          && e.2.metadata.filing_date == m.filing_date) then
      ({ success := false, duplicate := true, reason := some .similarTriple }, st)
    else
      match ragResult with
      | some summary =>
        let info : DocInfo :=
          { fingerprint := fp
            metadata := m
            summary := some summary
            content_length := content.length
            full_content := content
            content_hash := content }
        ({ success := true, fingerprint := some fp },
         { st with document_registry := (fp, info) :: st.document_registry })
      | none =>
        ({ success := false, error := true }, st)

/-! ## Claims -/

/-- Claim C10: `update_progress` only changes the six progress fields;
the job's `status`, `error_message`, `cancel_requested`, `created_at` and
`completed_at` (as well as `query` and `company_filter`) are left
unchanged, for every subset of supplied keyword fields, so an in-flight
progress update can never move a job's lifecycle state. -/
theorem update_progress_frame (job : IterativeAnalysisJob) (k : ProgressKwargs) :
    (update_progress job k).status = job.status ∧
    (update_progress job k).error_message = job.error_message ∧
    (update_progress job k).cancel_requested = job.cancel_requested ∧
    (update_progress job k).created_at = job.created_at ∧
    (update_progress job k).completed_at = job.completed_at ∧
    (update_progress job k).query = job.query ∧
    (update_progress job k).company_filter = job.company_filter := by
  rcases k with ⟨t, d, rq, f, ih, fa⟩
  cases t <;> cases d <;> cases rq <;> cases f <;> cases ih <;> cases fa <;>
    exact ⟨rfl, rfl, rfl, rfl, rfl, rfl, rfl⟩

/-- Claim C2: the stage-1 grader `validate_rag_response` is a total
function of the grading-call outcome (every exception of the LLM call and
every JSON parse failure is caught, so it never raises to its caller);
when the grading LLM responds but its output cannot be parsed as JSON the
returned record has `validation_passed = False` with confidence 0.0, and
when the grading call itself raises an infrastructure error the returned
record defaults to `validation_passed = True` with confidence 0.5. -/
theorem validate_rag_response_error_handling :
    ((validate_rag_response .parseFailure).validation_passed = some false ∧
      (validate_rag_response .parseFailure).confidence_score = some 0) ∧
    ∀ msg, (validate_rag_response (.infraError msg)).validation_passed = some true ∧
      (validate_rag_response (.infraError msg)).confidence_score = some (1/2) :=
  ⟨⟨rfl, rfl⟩, fun _ => ⟨rfl, rfl⟩⟩

/-- Claim C7: for every augmentation text, the quality score computed by
`_validate_financial_search_quality` equals the arithmetic mean of the
five boolean indicators, and meets-financial-standards holds iff
`has_specific_data`, `appropriate_length` (meaning `100 < length < 2000`)
and `no_disclaimers_only` all hold and the score is at least 0.6 = 3/5. -/
theorem web_quality_heuristic_spec (s : String) :
    quality_score s =
      ((if has_sources s then (1 : ℚ) else 0) + (if has_specific_data s then 1 else 0)
        + (if has_timeframe s then 1 else 0) + (if appropriate_length s then 1 else 0)
        + (if no_disclaimers_only s then 1 else 0)) / 5 ∧
    (meets_financial_standards s = true ↔
      has_specific_data s = true ∧ (100 < s.length ∧ s.length < 2000) ∧
        no_disclaimers_only s = true ∧ (3 : ℚ)/5 ≤ quality_score s) := by
  constructor
  · unfold quality_score
    cases has_sources s <;> cases has_specific_data s <;> cases has_timeframe s <;>
      cases appropriate_length s <;> cases no_disclaimers_only s <;> norm_num
  · simp only [meets_financial_standards, appropriate_length, Bool.and_eq_true,
      decide_eq_true_eq, and_assoc]

/-- Oracle driving the concrete controller run used to exhibit the C1
divergence: score-3 evaluation, one refinement (analysis 20), then a
score-9 complete evaluation. -/
def c1Llm : AnalysisLlm :=
  { initial := some 10
    evalAt := fun i => if i = 1 then some ⟨3, false⟩ else some ⟨9, true⟩
    queriesAt := fun _ => ["q"]
    refineAt := fun _ => some 20
    execQuery := fun _ => 0
    clock := fun n => "t" ++ toString n }

/-- The iteration history produced by the run driven by `c1Llm`. -/
def c1History : List IterRecord :=
  [{ iteration := 0, type := "initial_analysis", timestamp := "t0", analysis := some 10 },
   { iteration := 1, type := "evaluation", timestamp := "t1", evaluation := some ⟨3, false⟩,
     completeness_score := some 3, is_complete := some false },
   { iteration := 1, type := "rag_queries", timestamp := "t2", queries := some ["q"],
     results := some [0] },
   { iteration := 1, type := "refined_analysis", timestamp := "t3", analysis := some 20 },
   { iteration := 2, type := "evaluation", timestamp := "t4", evaluation := some ⟨9, true⟩,
     completeness_score := some 9, is_complete := some true }]

/-- Claim C1 (code bug): the controller appends refined analyses with the
type tag `'refined_analysis'`, but `get_latest_iteration_analysis` scans
for the tags `'initial_analysis'` and `'refinement'`, so on a real
controller history (here: initial analysis 10 followed by refined
analysis 20) it returns the initial analysis instead of the most recent
refined one — the `'refinement'` branch is dead against every history the
controller produces. -/
theorem get_latest_iteration_analysis_misses_refined :
    run_iterative_analysis c1Llm (fun _ => false) 1 =
      .finished
        { final_analysis := 20
          total_iterations := 2
          documents_analyzed := 1
          iteration_history := c1History
          final_completeness_score := 9
          rag_queries_executed := 1
          cancelled := false } ∧
    (c1History.filter (fun r => r.type == "refined_analysis")) =
      [{ iteration := 1, type := "refined_analysis", timestamp := "t3", analysis := some 20 }] ∧
    get_latest_iteration_analysis c1History = some 10 := by
  refine ⟨?_, ?_, ?_⟩ <;> rfl

/-- A gateway state with one cached search result, used for the C5
counterexample and witnesses. -/
def c5State : CogneeState :=
  { is_configured := true
    search_cache := [(create_cache_key "q" "graph", ["stale answer"])]
    document_registry := [] }

/-- Claim C5 counterexample: a successful `prune_data` does not clear
`_search_cache` (only `complete_reset` does), so a search with a
(query, mode) pair cached before the prune is still served from the
pre-prune cache, contradicting the claim as stated. -/
theorem prune_keeps_cache_counterexample :
    (prune_data true c5State).1 = true ∧
    (search_context ["fresh answer"] (prune_data true c5State).2 "q" "graph").1
      = ["stale answer"] :=
  ⟨rfl, rfl⟩

/-- Claim C5 as amended: after a successful `complete_reset` the search
cache is empty and a subsequent search is answered by the backend, never
by the pre-reset cache; a successful `prune_data` clears the document
registry but leaves the search cache unchanged. -/
theorem cache_clearing_on_reset_and_prune (st : CogneeState)
    (hconf : st.is_configured = true) :
    (complete_reset true st).1 = true ∧
    (complete_reset true st).2.search_cache = [] ∧
    (∀ backendResult q m,
      (search_context backendResult (complete_reset true st).2 q m).1 = backendResult) ∧
    (prune_data true st).1 = true ∧
    (prune_data true st).2.search_cache = st.search_cache ∧
    (prune_data true st).2.document_registry = [] := by
  refine ⟨rfl, rfl, ?_, ?_, ?_, ?_⟩
  · intro backendResult q m
    simp [search_context, complete_reset, hconf, List.lookup]
  · simp [prune_data, hconf]
  · simp [prune_data, hconf]
  · simp [prune_data, hconf]

/-- Witness for `cache_clearing_on_reset_and_prune` at the concrete state
`c5State`. -/
theorem cache_clearing_on_reset_and_prune_witness :
    (complete_reset true c5State).1 = true ∧
    (complete_reset true c5State).2.search_cache = [] ∧
    (∀ backendResult q m,
      (search_context backendResult (complete_reset true c5State).2 q m).1 = backendResult) ∧
    (prune_data true c5State).1 = true ∧
    (prune_data true c5State).2.search_cache = c5State.search_cache ∧
    (prune_data true c5State).2.document_registry = [] :=
  cache_clearing_on_reset_and_prune c5State rfl

/-- Claim C8: calling `add_document` twice with identical content and
metadata, when the first call succeeds, yields: the first call returns
success carrying the computed fingerprint; the second call is rejected by
the exact-fingerprint check as a duplicate (the source's reason string
`'Document already exists in registry'`, i.e. the exact-fingerprint tier,
not the similar-triple tier); and the registry gains exactly one entry
across the two calls. -/
theorem add_document_dedup (ragA ragB : Option Nat) (st : CogneeState)
    (content : String) (m : DocMetadata)
    (h : (add_document ragA st content m).1.success = true) :
    (add_document ragA st content m).1.fingerprint
      = some (create_document_fingerprint content m) ∧
    (add_document ragB (add_document ragA st content m).2 content m).1.success = false ∧
    (add_document ragB (add_document ragA st content m).2 content m).1.duplicate = true ∧
    (add_document ragB (add_document ragA st content m).2 content m).1.reason
      = some DupReason.exactFingerprint ∧
    (add_document ragB (add_document ragA st content m).2 content m).2.document_registry.length
      = st.document_registry.length + 1 := by
  rcases hc : st.is_configured with _ | _
  · simp [add_document, hc] at h
  · rcases hlk : (st.document_registry.lookup (create_document_fingerprint content m)).isSome
      with _ | _
    · rcases hsim : st.document_registry.any (fun e =>
          lowerStr e.2.metadata.company_name == lowerStr m.company_name
            && lowerStr e.2.metadata.form_type == lowerStr m.form_type
            && e.2.metadata.filing_date == m.filing_date) with _ | _
      · rcases ragA with _ | sm
        · simp [add_document, hc, hlk, hsim] at h
        · simp [add_document, hc, hlk, hsim, List.lookup]
      · simp [add_document, hc, hlk, hsim] at h
    · simp [add_document, hc, hlk] at h

/-- Registry metadata for the C8 witness run. -/
def c8Meta : DocMetadata :=
  { company_name := "Apple Inc."
    form_type := "10-K"
    filing_date := "2024-01-05"
    accession_number := "0000320193-24-000005" }

/-- An initially empty, configured service state for the C8 witness. -/
def c8State : CogneeState :=
  { is_configured := true, search_cache := [], document_registry := [] }

/-- Witness for `add_document_dedup` on a concrete first successful
insert followed by an identical second insert. -/
theorem add_document_dedup_witness :
    (add_document (some 0) c8State "filing content" c8Meta).1.fingerprint
      = some (create_document_fingerprint "filing content" c8Meta) ∧
    (add_document (some 0) (add_document (some 0) c8State "filing content" c8Meta).2
      "filing content" c8Meta).1.success = false ∧
    (add_document (some 0) (add_document (some 0) c8State "filing content" c8Meta).2
      "filing content" c8Meta).1.duplicate = true ∧
    (add_document (some 0) (add_document (some 0) c8State "filing content" c8Meta).2
      "filing content" c8Meta).1.reason = some DupReason.exactFingerprint ∧
    (add_document (some 0) (add_document (some 0) c8State "filing content" c8Meta).2
      "filing content" c8Meta).2.document_registry.length
      = c8State.document_registry.length + 1 :=
  add_document_dedup (some 0) (some 0) c8State "filing content" c8Meta rfl

/-- Claim C6 counterexample: when the grading fails and the grounded
search succeeds but returns empty stripped text, the augmentation is
present with `search_available = True` yet `get_final_response` falls
back to the original RAG strings (Python truthiness of `''`) while the
pipeline's `final_source` stays `'gemini_search'` — contradicting the
claim as stated, whose web branches require the augmented text to be
returned and whose otherwise-branch requires source `'rag'`. -/
theorem get_final_response_empty_search_counterexample :
    (validate_and_enhance_rag_response ["rag answer"]
        (.parsed { validation_passed := some false }) true (.ok "")).enhanced_response
      = some
        { search_available := true
          response := some ""
          quality_assessment := some (validate_financial_search_quality "") } ∧
    get_final_response (validate_and_enhance_rag_response ["rag answer"]
        (.parsed { validation_passed := some false }) true (.ok ""))
      = ["rag answer"] ∧
    (validate_and_enhance_rag_response ["rag answer"]
        (.parsed { validation_passed := some false }) true (.ok "")).final_source
      = "gemini_search" :=
  ⟨rfl, rfl, rfl⟩

/-- Claim C6 as amended: for every grader-pipeline result, if a web
augmentation response is present, its search succeeded
(`search_available`) and its text is non-empty, then: when its quality
assessment meets financial standards `get_final_response` returns exactly
the augmented text as the single final answer and the pipeline reports
the web source (`'gemini_search'`); when it fails the standards the
augmented text is returned with the warning suffix appended.  If no
augmentation is present, or its search failed, the original RAG answer
strings are returned with source `'rag'`.  If the search succeeded but
its text is empty, the original RAG strings are returned while the
pipeline still reports the web source. -/
theorem get_final_response_spec (rag : List String) (grader : GraderCall)
    (configured : Bool) (search : SearchOutcome) (pr : PipelineResult)
    (hpr : pr = validate_and_enhance_rag_response rag grader configured search) :
    (∀ e t qa, pr.enhanced_response = some e → e.search_available = true →
      e.response = some t → t ≠ "" → e.quality_assessment = some qa →
      (qa.meets_financial_standards = true →
        get_final_response pr = [t] ∧ pr.final_source = "gemini_search") ∧
      (qa.meets_financial_standards = false →
        get_final_response pr = [t ++ qualityWarning])) ∧
    (pr.enhanced_response = none →
      get_final_response pr = rag ∧ pr.final_source = "rag") ∧
    (∀ e, pr.enhanced_response = some e → e.search_available = false →
      get_final_response pr = rag ∧ pr.final_source = "rag") ∧
    (∀ e, pr.enhanced_response = some e → e.search_available = true →
      e.response = some "" →
      get_final_response pr = rag ∧ pr.final_source = "gemini_search") := by
  subst hpr
  by_cases hv : (validate_rag_response grader).validation_passed.getD true = false
  · refine ⟨?_, ?_, ?_, ?_⟩
    · intro e t qa he hs hr ht hqa
      simp only [validate_and_enhance_rag_response, if_pos hv, Option.some.injEq] at he
      subst he
      constructor
      · intro hm
        constructor
        · simp [get_final_response, validate_and_enhance_rag_response, if_pos hv,
            hs, hr, ht, hqa, hm]
        · simp [validate_and_enhance_rag_response, if_pos hv, hs]
      · intro hm
        simp [get_final_response, validate_and_enhance_rag_response, if_pos hv,
          hs, hr, ht, hqa, hm]
    · intro he
      simp [validate_and_enhance_rag_response, if_pos hv] at he
    · intro e he hs
      simp only [validate_and_enhance_rag_response, if_pos hv, Option.some.injEq] at he
      subst he
      constructor
      · simp [get_final_response, hs, validate_and_enhance_rag_response, if_pos hv]
      · simp [validate_and_enhance_rag_response, if_pos hv, hs]
    · intro e he hs hr
      simp only [validate_and_enhance_rag_response, if_pos hv, Option.some.injEq] at he
      subst he
      constructor
      · simp [get_final_response, validate_and_enhance_rag_response, if_pos hv,
          hs, hr]
      · simp [validate_and_enhance_rag_response, if_pos hv, hs]
  · refine ⟨?_, ?_, ?_, ?_⟩
    · intro e t qa he
      simp [validate_and_enhance_rag_response, if_neg hv] at he
    · intro _
      constructor
      · simp [get_final_response, validate_and_enhance_rag_response, if_neg hv]
      · simp [validate_and_enhance_rag_response, if_neg hv]
    · intro e he
      simp [validate_and_enhance_rag_response, if_neg hv] at he
    · intro e he
      simp [validate_and_enhance_rag_response, if_neg hv] at he

/-- The augmented web answer used by the C6 witness; it names a trusted
source, carries specific figures and has appropriate length, so it meets
the financial-quality standards. -/
def c6WebText : String :=
  "According to Reuters, Apple reported revenue of 120 billion dollars for Q1 2025, up 5 percent from the previous year."

set_option maxRecDepth 8192 in
/-- Witness for `get_final_response_spec`: a failed grading triggers the
web search, whose answer meets the standards and is returned verbatim
with the web source. -/
theorem get_final_response_spec_witness :
    get_final_response (validate_and_enhance_rag_response ["Apple is a tech company."]
      (.parsed { validation_passed := some false }) true (.ok c6WebText)) = [c6WebText] ∧
    (validate_and_enhance_rag_response ["Apple is a tech company."]
      (.parsed { validation_passed := some false }) true (.ok c6WebText)).final_source
      = "gemini_search" :=
  ((get_final_response_spec ["Apple is a tech company."]
      (.parsed { validation_passed := some false }) true (.ok c6WebText) _ rfl).1
    (search_with_gemini true (.ok c6WebText)) c6WebText
    (validate_financial_search_quality c6WebText)
    rfl rfl rfl (by decide) rfl).1
    (by
      show meets_financial_standards c6WebText = true
      have h1 : has_specific_data c6WebText = true := by decide
      have h2 : appropriate_length c6WebText = true := by decide
      have h3 : no_disclaimers_only c6WebText = true := by decide
      have h4 : has_sources c6WebText = true := by decide
      have h5 : has_timeframe c6WebText = false := by decide
      simp only [meets_financial_standards, quality_score, h1, h2, h3, h4, h5,
        Bool.toNat_true, Bool.toNat_false, Bool.true_and, Bool.and_eq_true,
        decide_eq_true_eq]
      norm_num)

/-- `finalScoreAux` returns the defaulted `completeness_score` of the
first `'evaluation'` record of its argument. -/
theorem finalScoreAux_eq_find? (l : List IterRecord) :
    finalScoreAux l =
      ((l.find? (fun r => r.type == "evaluation")).map
        (fun r => r.completeness_score.getD 0)).getD 0 := by
  induction l with
  | nil => rfl
  | cons r rest ih =>
    cases hr : r.type == "evaluation" <;>
      simp [finalScoreAux, List.find?_cons, hr, ih]

/-- `_get_final_completeness_score` computes the defaulted
`completeness_score` of the last `'evaluation'` record. -/
theorem get_final_completeness_score_eq_lastEval (h : List IterRecord) :
    get_final_completeness_score h =
      (((h.filter (fun r => r.type == "evaluation")).getLast?).map
        (fun r => r.completeness_score.getD 0)).getD 0 := by
  rw [get_final_completeness_score, finalScoreAux_eq_find?, List.filter_getLast?]

/-- Claim C9: for every run of the controller that returns final results,
the reported `final_completeness_score` equals the `completeness_score` of
the last record of type `'evaluation'` in `iteration_history` (defaulted
to 0 if the record lacks the key), or 0 if the history contains no
evaluation record. -/
theorem final_score_matches_last_evaluation (o : AnalysisLlm)
    (cancel : Nat → Bool) (documentCount : Nat) (r : FinalResults)
    (h : run_iterative_analysis o cancel documentCount = .finished r) :
    r.final_completeness_score =
      (((r.iteration_history.filter (fun rec => rec.type == "evaluation")).getLast?).map
        (fun rec => rec.completeness_score.getD 0)).getD 0 := by
  simp only [run_iterative_analysis] at h
  split at h
  · exact absurd h (by simp)
  · split at h
    · exact absurd h (by simp)
    · split at h
      · exact absurd h (by simp)
      · rw [RunOutcome.finished.injEq] at h
        rw [← h]
        exact get_final_completeness_score_eq_lastEval _

/-- Oracle for the C9 witness run: one complete score-8 evaluation. -/
def c9Llm : AnalysisLlm :=
  { initial := some 0
    evalAt := fun _ => some ⟨8, true⟩
    queriesAt := fun _ => []
    refineAt := fun _ => none
    execQuery := fun _ => 0
    clock := fun _ => "t" }

/-- Witness for `final_score_matches_last_evaluation` on a concrete run
that stops after its first evaluation with score 8. -/
theorem final_score_matches_last_evaluation_witness :
    run_iterative_analysis c9Llm (fun _ => false) 3 =
      .finished
        { final_analysis := 0
          total_iterations := 1
          documents_analyzed := 3
          iteration_history :=
            [{ iteration := 0, type := "initial_analysis", timestamp := "t",
               analysis := some 0 },
             { iteration := 1, type := "evaluation", timestamp := "t",
               evaluation := some ⟨8, true⟩, completeness_score := some 8,
               is_complete := some true }]
          final_completeness_score := 8
          rag_queries_executed := 0
          cancelled := false } ∧
    ∀ r, run_iterative_analysis c9Llm (fun _ => false) 3 = .finished r →
      r.final_completeness_score =
        (((r.iteration_history.filter (fun rec => rec.type == "evaluation")).getLast?).map
          (fun rec => rec.completeness_score.getD 0)).getD 0 :=
  ⟨rfl, fun r hr => final_score_matches_last_evaluation c9Llm (fun _ => false) 3 r hr⟩

/-- Claim C4: after any EVALUATE phase whose parsed result has
`is_analysis_complete = True` or `completeness_score ≥ 7` (including a
score of exactly 7), the controller exits the refinement loop
immediately: the remaining run appends exactly the evaluation record and
nothing else, so no `'rag_queries'` or `'refined_analysis'` record follows
that evaluation record in `iteration_history`. -/
theorem evaluation_complete_exits_loop (o : AnalysisLlm) (cancel : Nat → Bool)
    (fuel i : Nat) (st : RunState) (ev : EvalResult)
    (hc : cancel st.polls = false)
    (hev : o.evalAt i = some ev)
    (hdone : ev.is_analysis_complete = true ∨ 7 ≤ ev.completeness_score) :
    runLoop o cancel (fuel + 1) i st =
      { current := st.current
        history := st.history ++ [evaluationRecord o i st.history.length ev]
        polls := st.polls + 1 } := by
  simp only [runLoop, hc, hev]
  rw [if_pos hdone]
  simp

/-- Oracle for the C4 witness run: a score-7 incomplete evaluation, with
queries and refinements available (which must not be consulted). -/
def c4Llm : AnalysisLlm :=
  { initial := some 5
    evalAt := fun _ => some ⟨7, false⟩
    queriesAt := fun _ => ["q1", "q2"]
    refineAt := fun _ => some 6
    execQuery := fun _ => 1
    clock := fun n => "t" ++ toString n }

/-- The initial-analysis record of the C4 witness state. -/
def c4InitRecord : IterRecord :=
  { iteration := 0
    type := "initial_analysis"
    timestamp := "t0"
    analysis := some 5 }

/-- The loop state of the C4 witness before its evaluation phase. -/
def c4State : RunState :=
  { current := 5
    history := [c4InitRecord]
    polls := 1 }

/-- Witness for `evaluation_complete_exits_loop`: a score of exactly 7
stops the loop right after the evaluation record. -/
theorem evaluation_complete_exits_loop_witness :
    runLoop c4Llm (fun _ => false) 10 1 c4State =
      { current := 5
        history := [c4InitRecord, evaluationRecord c4Llm 1 1 ⟨7, false⟩]
        polls := 2 } :=
  evaluation_complete_exits_loop c4Llm (fun _ => false) 9 1 c4State
    ⟨7, false⟩ rfl rfl (Or.inr (by decide))

/-- Without cancellation, the per-query loop executes every query and
makes one poll per query. -/
theorem execRagQueries_no_cancel (o : AnalysisLlm) (cancel : Nat → Bool)
    (hcancel : ∀ n, cancel n = false) (qs : List String) :
    ∀ polls, execRagQueries o cancel qs polls = (qs.map o.execQuery, polls + qs.length) := by
  induction qs with
  | nil => intro polls; simp [execRagQueries]
  | cons q qs ih =>
    intro polls
    simp only [execRagQueries, hcancel, Bool.false_eq_true, if_false, ih, List.map_cons]
    simp
    omega

/-- `countEvaluations` distributes over history concatenation. -/
theorem countEvaluations_append (h1 h2 : List IterRecord) :
    countEvaluations (h1 ++ h2) = countEvaluations h1 + countEvaluations h2 := by
  simp [countEvaluations, List.filter_append]

/-- The loop state after one full (evaluate, retrieve, refine) iteration
of `runLoop` starting from `st`: three records are appended and the
current analysis becomes the refined one. -/
def nextState (o : AnalysisLlm) (i : Nat) (st : RunState) (ev : EvalResult)
    (queries : List String) (a : Analysis) : RunState :=
  let h1 := st.history ++ [evaluationRecord o i st.history.length ev]
  let h2 := h1 ++ [ragQueriesRecord o i h1.length queries (queries.map o.execQuery)]
  { current := a
    history := h2 ++ [refinedAnalysisRecord o i h2.length a]
    polls := st.polls + 1 + queries.length + 1 }

/-- One full iteration of `runLoop` under no cancellation, an incomplete
below-threshold evaluation, non-empty queries and a parsed refinement. -/
theorem runLoop_step (o : AnalysisLlm) (cancel : Nat → Bool)
    (fuel i : Nat) (st : RunState) (ev : EvalResult) (a : Analysis)
    (q : String) (qs : List String)
    (hcancel : ∀ n, cancel n = false)
    (hev : o.evalAt i = some ev)
    (hic : ev.is_analysis_complete = false)
    (hlt : ev.completeness_score < 7)
    (hqe : o.queriesAt i = q :: qs)
    (ha : o.refineAt i = some a) :
    runLoop o cancel (fuel + 1) i st =
      runLoop o cancel fuel (i + 1) (nextState o i st ev (q :: qs) a) := by
  have hnc : ¬ (ev.is_analysis_complete = true ∨ 7 ≤ ev.completeness_score) := by
    intro hor
    rcases hor with hh | hh
    · rw [hic] at hh
      exact Bool.false_ne_true hh
    · omega
  simp only [runLoop, hcancel, Bool.false_eq_true, if_false, hev, if_neg hnc, hqe,
    execRagQueries_no_cancel o cancel hcancel, ha, nextState]

/-- When every iteration in range evaluates incomplete below threshold,
yields queries and refines successfully, and cancellation never fires,
`runLoop` consumes all its fuel, adding one evaluation record per unit of
fuel, and ends holding the analysis refined in its last iteration. -/
theorem runLoop_exhausts_fuel (o : AnalysisLlm) (cancel : Nat → Bool)
    (hcancel : ∀ n, cancel n = false) :
    ∀ (fuel : Nat) (i : Nat) (st : RunState),
      (∀ j, i ≤ j → j < i + fuel →
        (∃ ev, o.evalAt j = some ev ∧ ev.is_analysis_complete = false ∧
          ev.completeness_score < 7) ∧
        o.queriesAt j ≠ [] ∧ (o.refineAt j).isSome) →
      countEvaluations (runLoop o cancel fuel i st).history
          = countEvaluations st.history + fuel ∧
      ((fuel = 0 ∧ runLoop o cancel fuel i st = st) ∨
       (1 ≤ fuel ∧ o.refineAt (i + fuel - 1)
          = some (runLoop o cancel fuel i st).current)) := by
  intro fuel
  induction fuel with
  | zero =>
    intro i st _
    exact ⟨by simp [runLoop], Or.inl ⟨rfl, rfl⟩⟩
  | succ fuel ih =>
    intro i st hyp
    obtain ⟨⟨ev, hev, hic, hlt⟩, hq, href⟩ := hyp i (Nat.le_refl i) (by omega)
    obtain ⟨a, ha⟩ := Option.isSome_iff_exists.mp href
    rcases hqe : o.queriesAt i with _ | ⟨q, qs⟩
    · exact absurd hqe hq
    rw [runLoop_step o cancel fuel i st ev a q qs hcancel hev hic hlt hqe ha]
    have hyp' : ∀ j, i + 1 ≤ j → j < (i + 1) + fuel →
        (∃ ev, o.evalAt j = some ev ∧ ev.is_analysis_complete = false ∧
          ev.completeness_score < 7) ∧
        o.queriesAt j ≠ [] ∧ (o.refineAt j).isSome :=
      fun j hj1 hj2 => hyp j (by omega) (by omega)
    obtain ⟨hcount, hcur⟩ := ih (i + 1) (nextState o i st ev (q :: qs) a) hyp'
    have hone : countEvaluations (nextState o i st ev (q :: qs) a).history
        = countEvaluations st.history + 1 := by
      have he1 : countEvaluations [evaluationRecord o i st.history.length ev] = 1 := rfl
      simp only [nextState, countEvaluations_append, he1]
      have hr0 : ∀ (t : Nat), countEvaluations
          [ragQueriesRecord o i t (q :: qs) ((q :: qs).map o.execQuery)] = 0 :=
        fun _ => rfl
      have hf0 : ∀ (t : Nat), countEvaluations [refinedAnalysisRecord o i t a] = 0 :=
        fun _ => rfl
      rw [hr0, hf0]
    constructor
    · rw [hcount, hone]
      omega
    · refine Or.inr ⟨by omega, ?_⟩
      rcases hcur with ⟨hf0, hst⟩ | ⟨hf1, hrf⟩
      · subst hf0
        rw [hst]
        have hidx : i + (0 + 1) - 1 = i := by omega
        rw [hidx]
        simpa [nextState] using ha
      · have hidx : i + (fuel + 1) - 1 = (i + 1) + fuel - 1 := by omega
        rw [hidx]
        exact hrf

/-- Claim C3: in a run where every evaluation parses with
`completeness_score < 7` and `is_analysis_complete = False`, every
RETRIEVE yields a non-empty query list, every refinement parses and
cancellation never fires, the refinement loop performs exactly
`max_iterations = 10` evaluation iterations and then terminates, returning
the analysis refined in iteration 10 (the analysis it has at that point). -/
theorem iteration_cap (o : AnalysisLlm) (cancel : Nat → Bool)
    (documentCount : Nat) (a0 : Analysis)
    (hdoc : documentCount ≠ 0)
    (hcancel : ∀ n, cancel n = false)
    (hinit : o.initial = some a0)
    (hev : ∀ i, 1 ≤ i → i ≤ 10 → ∃ ev, o.evalAt i = some ev ∧
      ev.is_analysis_complete = false ∧ ev.completeness_score < 7)
    (hq : ∀ i, 1 ≤ i → i ≤ 10 → o.queriesAt i ≠ [])
    (href : ∀ i, 1 ≤ i → i ≤ 10 → (o.refineAt i).isSome) :
    ∃ r, run_iterative_analysis o cancel documentCount = .finished r ∧
      r.total_iterations = 10 ∧
      countEvaluations r.iteration_history = 10 ∧
      o.refineAt 10 = some r.final_analysis ∧
      r.cancelled = false := by
  have hhyp : ∀ j, 1 ≤ j → j < 1 + 10 →
      (∃ ev, o.evalAt j = some ev ∧ ev.is_analysis_complete = false ∧
        ev.completeness_score < 7) ∧
      o.queriesAt j ≠ [] ∧ (o.refineAt j).isSome :=
    fun j h1 h2 => ⟨hev j h1 (by omega), hq j h1 (by omega), href j h1 (by omega)⟩
  obtain ⟨hcount, hcur⟩ := runLoop_exhausts_fuel o cancel hcancel 10 1
    { current := a0, history := [initialAnalysisRecord o a0], polls := 1 } hhyp
  rcases hcur with ⟨hf0, _⟩ | ⟨_, hrf⟩
  · exact absurd hf0 (by omega)
  simp only [run_iterative_analysis, if_neg hdoc, hcancel 0, Bool.false_eq_true,
    if_false, hinit, max_iterations]
  refine ⟨_, rfl, ?_, ?_, ?_, ?_⟩
  · simpa using hcount
  · simpa using hcount
  · simpa using hrf
  · simp [hcancel]

/-- Oracle for the C3 witness run: every evaluation scores 4 and is
incomplete, queries and refinements always succeed. -/
def c3Llm : AnalysisLlm :=
  { initial := some 0
    evalAt := fun _ => some ⟨4, false⟩
    queriesAt := fun _ => ["q"]
    refineAt := fun i => some i
    execQuery := fun _ => 0
    clock := fun n => "t" ++ toString n }

/-- Witness for `iteration_cap`: the concrete never-complete run stops at
exactly 10 evaluations. -/
theorem iteration_cap_witness :
    ∃ r, run_iterative_analysis c3Llm (fun _ => false) 1 = .finished r ∧
      r.total_iterations = 10 ∧
      countEvaluations r.iteration_history = 10 ∧
      c3Llm.refineAt 10 = some r.final_analysis ∧
      r.cancelled = false :=
  iteration_cap c3Llm (fun _ => false) 1 0 (by decide) (fun _ => rfl) rfl
    (fun i _ _ => ⟨⟨4, false⟩, rfl, rfl, by decide⟩)
    (fun i _ _ => by simp [c3Llm])
    (fun i _ _ => rfl)

end FinDocGPT
